import Mathlib

/-
Verification of the analyst-bot intent-driven analytical pipeline.

The definitions below are a shallow embedding of the Python sources:
  src/graph/state.py, src/graph/graph.py, src/graph/nodes/classify.py,
  src/graph/nodes/describe.py, src/graph/nodes/diagnose.py,
  src/graph/nodes/prescribe.py, src/graph/nodes/synthesize.py,
  src/bot/telegram_bot.py, src/agents/wb_senior_analyst.py,
  src/memory/conversation.py.

External collaborators (the LLM reasoning service, the data-retrieval
tools, json.loads, the system clock) are modelled as parameters: tool
results are opaque strings keyed by the tool label recorded in the
data-context entry, the clock is an explicit argument, and the JSON
decoding outcome of the classifier reply is an explicit argument.
-/

namespace AnalystBot

/-- Lower-casing of one character as Python str.lower acts on the
alphabets appearing in this code base: ASCII A-Z and Cyrillic А-Я / Ё.
All keyword lists in the sources are ASCII or Russian Cyrillic, so on
the questions and comments of interest this agrees with Python. -/
def pyCharLower (c : Char) : Char :=
  if 'A' ≤ c ∧ c ≤ 'Z' then Char.ofNat (c.toNat + 32)
  else if c = 'Ё' then 'ё'
  else if 'А' ≤ c ∧ c ≤ 'Я' then Char.ofNat (c.toNat + 32)
  else c

/-- Python `s.lower()` (restricted to the alphabets used by the code). -/
def pyLower (s : String) : String := String.mk (s.data.map pyCharLower)

/-- Python `w in s`: substring occurrence. A word occurs when some
suffix of `s` has it as a prefix. -/
def strContains (s w : String) : Bool :=
  s.data.tails.any (fun t => w.data.isPrefixOf t)

/-- Python `any(word in s for word in ws)`. -/
def containsAny (s : String) (ws : List String) : Bool :=
  ws.any (fun w => strContains s w)

/-- Python `s.startswith((p1, p2, ...))`: true when some listed string
is a prefix of `s`. -/
def startsWithAny (s : String) (ps : List String) : Bool :=
  ps.any (fun p => p.data.isPrefixOf s.data)

/-- Python `s.isdigit()` for the ASCII identifiers in play: nonempty
and all decimal digits. -/
def pyIsDigit (s : String) : Bool :=
  !s.data.isEmpty && s.data.all (fun c => c.isDigit)

/-- Python `int(s)` on an all-digit string. -/
def pyToNat (s : String) : Nat :=
  s.data.foldl (fun n c => 10 * n + (c.toNat - 48)) 0

/-- One `DataContextEntry` `{"tool": ..., "result": ...}` as appended by
the stage nodes (src/graph/state.py, data_context list elements). -/
structure DCEntry where
  tool : String
  result : String
  deriving Repr, DecidableEq

/-- The recognized entity keys of the classifier output as used by the
downstream stages: `entities.get("skus", [])` in diagnose.py and
`entities.get("date_range", "yesterday")` in describe.py.  Absent keys
are represented by their code-side default values. -/
structure EntitySet where
  skus : List String
  date_range : String
  metrics : List String
  deriving Repr, DecidableEq

/-- A Python value as produced by `json.loads` (classify.py line 42). -/
inductive PyVal where
  | none
  | bool (b : Bool)
  | int (n : Int)
  | str (s : String)
  | list (xs : List PyVal)
  | dict (kvs : List (String × PyVal))

/-- The uncaught exception the classifier can raise: `result.get`
on a non-dict value raises AttributeError, which is not in the
`except (json.JSONDecodeError, IndexError)` clause of classify.py. -/
inductive PyError where
  | attributeError
  deriving Repr, DecidableEq

/-- Outcome of `json.loads(content.strip())` on the fence-stripped
reply text (classify.py lines 36-42): either a decode failure or a
parsed Python value.  `json.loads` is the Python standard library, so
it enters the model as this explicit argument; e.g. the reply text
`"123"` yields `ok (int 123)` and the reply `"not json"` yields
`jsonDecodeError`.  The fence-splitting on lines 37-40 cannot raise
IndexError when its guard holds, so no separate outcome is needed. -/
inductive LoadsOutcome where
  | jsonDecodeError
  | ok (v : PyVal)

/-- Python `dict.get(key, default)`. -/
def pyDictGet (kvs : List (String × PyVal)) (key : String) (dflt : PyVal) : PyVal :=
  match kvs.find? (fun p => p.fst == key) with
  | Option.some p => p.snd
  | Option.none => dflt

/-- Whether a Python value is a dict (the only `json.loads` result on
which `.get` does not raise AttributeError). -/
def isDict : PyVal → Bool
  | .dict _ => true
  | _ => false

/-- Causal-marker words of the classifier fallback (classify.py line 51). -/
def classify_diagnose_words : List String :=
  ["почему", "причин", "упал", "снизил", "что случил"]

/-- Action-request marker words of the classifier fallback (classify.py line 53). -/
def classify_prescribe_words : List String :=
  ["что делать", "как улучш", "рекоменд", "оптимиз", "совет"]

/-- Factual-query marker words of the classifier fallback (classify.py line 55). -/
def classify_describe_words : List String :=
  ["какой", "сколько", "покажи", "топ", "план", "маржа", "выручка"]

/-- The ordered keyword fallback of classify.py lines 49-58: the
question is lower-cased and matched against the three marker lists in
order, defaulting to "describe". -/
def classify_fallback_intent (question : String) : String :=
  let ql := pyLower question
  if containsAny ql classify_diagnose_words then "diagnose"
  else if containsAny ql classify_prescribe_words then "prescribe"
  else if containsAny ql classify_describe_words then "describe"
  else "describe"

/-- The entities dict set by the fallback branch (classify.py lines 60-64). -/
def fallback_entities : PyVal :=
  .dict [("skus", .list []), ("date_range", .str "yesterday"), ("metrics", .list [])]

/-- The try/except body of `classify_intent` (classify.py lines 34-64),
from the `json.loads` outcome on: on a decode failure the keyword
fallback computes the intent and default entities; on a parsed dict the
code reads `result.get("intent", "describe")` and
`result.get("entities", {})`; on any other parsed value `result.get`
raises AttributeError, which the except clause
`(json.JSONDecodeError, IndexError)` does not catch. -/
def classify_intent (question : String) (loads : LoadsOutcome) :
    Except PyError (PyVal × PyVal) :=
  match loads with
  | .jsonDecodeError =>
      Except.ok (.str (classify_fallback_intent question), fallback_entities)
  | .ok v =>
      match v with
      | .dict kvs =>
          Except.ok (pyDictGet kvs "intent" (.str "describe"),
                     pyDictGet kvs "entities" (.dict []))
      | _ => Except.error PyError.attributeError

/-- `get_date_from_range` of describe.py lines 30-45.  The three date
parameters stand for `datetime.now()`, now minus one day and now minus
seven days, each formatted "%Y-%m-%d"; `date_range` is modelled as the
string token case (so the `isinstance(date_range, str)` guard holds and
the branch tests reduce to the string tests shown). -/
def get_date_from_range (today yesterday lastWeek : String) (date_range : String) : String :=
  if date_range = "today" then today
  else if date_range = "yesterday" then yesterday
  else if date_range = "last_week" then lastWeek
  else if strContains date_range "-" then date_range
  else yesterday

/-- Margin keyword group of describe.py line 64. -/
def margin_words : List String := ["маржа", "прибыль", "финрез", "финансов"]

/-- Plan keyword group of describe.py line 69. -/
def plan_words : List String := ["план", "выполнен", "факт", "kpi"]

/-- Top-SKU keyword group of describe.py line 78. -/
def top_words : List String := ["топ", "лучш", "лидер"]

/-- Bottom-SKU keyword group of describe.py line 83. -/
def bottom_words : List String := ["убыточ", "худш", "минус", "отрицат", "проблем"]

/-- Funnel keyword group of describe.py line 88. -/
def funnel_words : List String := ["воронк", "конверс", "просмотр", "заказ", "выкуп"]

/-- Stock keyword group of describe.py line 93. -/
def stock_words : List String := ["остат", "сток", "склад", "наличи"]

/-- Advertising keyword group of describe.py line 98. -/
def ads_words : List String := ["реклам", "drr", "дрр", "кампани", "ставк"]

/-- Trend keyword group of describe.py line 107. -/
def trend_words : List String := ["динамик", "тренд", "неделя", "дней", "измен"]

/-- Under-plan keyword group of describe.py line 112. -/
def underperf_words : List String := ["отстающ", "отставан", "недовыполн"]

/-- The `describe` node (describe.py lines 48-129), as the fresh
`data_context` list it builds and returns.  The question is
lower-cased; each matched keyword group appends its entries in the
source order; if nothing matched, the fallback appends the margin
summary and the plan-vs-fact summary.  `res` is the external tool
layer: the result text of each invocation, keyed by the tool label the
entry records (each tool is invoked at most once per pass, with the
argument values fixed at its call site, so the label determines the
invocation). -/
def describe_base (question : String) (res : String → String) : List DCEntry :=
  let q := pyLower question
  (if containsAny q margin_words then [⟨"margin_summary", res "margin_summary"⟩] else []) ++
  (if containsAny q plan_words then
     [⟨"plan_fact", res "plan_fact"⟩, ⟨"plan_forecast", res "plan_forecast"⟩] else []) ++
  (if containsAny q top_words then [⟨"top_margin_sku", res "top_margin_sku"⟩] else []) ++
  (if containsAny q bottom_words then [⟨"bottom_margin_sku", res "bottom_margin_sku"⟩] else []) ++
  (if containsAny q funnel_words then [⟨"funnel_summary", res "funnel_summary"⟩] else []) ++
  (if containsAny q stock_words then [⟨"stock_summary", res "stock_summary"⟩] else []) ++
  (if containsAny q ads_words then
     [⟨"ads_summary", res "ads_summary"⟩, ⟨"high_drr_campaigns", res "high_drr_campaigns"⟩] else []) ++
  (if containsAny q trend_words then [⟨"margin_trend", res "margin_trend"⟩] else []) ++
  (if containsAny q underperf_words then [⟨"underperforming_sku", res "underperforming_sku"⟩] else [])

/-- The fallback check of describe.py lines 117-123: if the keyword
scan selected nothing, the node appends the general margin summary and
the plan-vs-fact summary instead.  The `date` argument mirrors the
source signature: it parameterizes the tool invocations, whose results
are already folded into `res`, so it does not appear in the entries. -/
def describe (question date : String) (res : String → String) : List DCEntry :=
  if (describe_base question res).isEmpty then
    [⟨"margin_summary", res "margin_summary"⟩, ⟨"plan_fact", res "plan_fact"⟩]
  else describe_base question res

/-- Causal keyword group of diagnose.py line 46. -/
def diag_causal_words : List String := ["почему", "причин", "что случил", "что произошл"]

/-- Comparison keyword group of diagnose.py line 51. -/
def diag_compare_words : List String := ["сравн", "неделя", "период", "было"]

/-- Anomaly keyword group of diagnose.py line 61. -/
def diag_anomaly_words : List String := ["аномал", "резк", "скачок", "провал", "выброс"]

/-- The tool-name prefixes of the diagnose fallback guard
(diagnose.py line 66). -/
def diag_tool_prefixes : List String :=
  ["analyze", "compare", "find_anomalies", "diagnose_sku"]

/-- The nmids on which the per-SKU loop of diagnose.py lines 36-43
invokes `diagnose_sku`: the loop runs over `skus[:3]`, converts
`int(sku)` when `str(sku).isdigit()`, and `if nmid:` additionally
skips the value 0. -/
def diagnose_sku_calls (skus : List String) : List Nat :=
  (skus.take 3).filterMap (fun sku =>
    if pyIsDigit sku && pyToNat sku != 0 then some (pyToNat sku) else none)

/-- The entries appended by the per-SKU loop of diagnose.py lines
36-43.  `dt` is the external `diagnose_sku` tool: `none` models the
invocation raising, in which case `except Exception: pass` skips that
SKU silently. -/
def diagnose_sku_entries (skus : List String) (dt : Nat → Option String) : List DCEntry :=
  (diagnose_sku_calls skus).filterMap
    (fun nmid => (dt nmid).map (fun r => DCEntry.mk "diagnose_sku" r))

/-- The keyword-driven section of the diagnose node (diagnose.py lines
45-63): the causal, comparison and anomaly groups, each appending its
entry when matched, in source order. -/
def diagnose_keyword_entries (question : String) (res : String → String) : List DCEntry :=
  let q := pyLower question
  (if containsAny q diag_causal_words then
     [⟨"analyze_margin_change", res "analyze_margin_change"⟩] else []) ++
  (if containsAny q diag_compare_words then
     [⟨"compare_periods", res "compare_periods"⟩] else []) ++
  (if containsAny q diag_anomaly_words then
     [⟨"find_anomalies", res "find_anomalies"⟩] else [])

/-- The full diagnose node (diagnose.py lines 18-75): per-SKU entries,
keyword entries, then the fallback guard of lines 65-69 appending the
general margin-change analysis when no diagnostic-prefixed tool name is
present in the accumulated list. -/
def diagnose (question : String) (skus : List String) (dc : List DCEntry)
    (dt : Nat → Option String) (res : String → String) : List DCEntry :=
  let dc2 := dc ++ diagnose_sku_entries skus dt ++ diagnose_keyword_entries question res
  if dc2.any (fun item => startsWithAny item.tool diag_tool_prefixes) then dc2
  else dc2 ++ [⟨"analyze_margin_change", res "analyze_margin_change"⟩]

/-- The `prescribe` node (prescribe.py lines 18-61) as the
transformation of the `data_context` list it receives and returns
(appended to in place, like diagnose). -/
def prescribe (question : String) (dc : List DCEntry) (res : String → String) :
    List DCEntry :=
  let q := pyLower question
  let dc2 := dc ++
    (if containsAny q ["что делать", "как улучш", "рекоменд", "совет", "действ"] then
       [⟨"actionable_insights", res "actionable_insights"⟩] else []) ++
    (if containsAny q ["оптимиз", "снизить", "сэконом", "убыточ", "дрр"] then
       [⟨"optimization_candidates", res "optimization_candidates"⟩] else []) ++
    (if containsAny q ["масштаб", "увелич", "рост", "больше", "скейл"] then
       [⟨"scaling_candidates", res "scaling_candidates"⟩] else []) ++
    (if containsAny q ["план", "выполн", "kpi", "цел"] then
       [⟨"plan_recommendations", res "plan_recommendations"⟩] else [])
  if dc2.any (fun item =>
      item.tool == "actionable_insights" || item.tool == "optimization_candidates" ||
      item.tool == "scaling_candidates" || item.tool == "plan_recommendations") then dc2
  else dc2 ++ [⟨"actionable_insights", res "actionable_insights"⟩]

/-- `route_after_describe` of graph.py lines 39-48. -/
def route_after_describe (intent : String) : String :=
  if intent = "diagnose" then "diagnose"
  else if intent = "prescribe" then "diagnose"
  else "synthesize"

/-- `route_after_diagnose` of graph.py lines 60-67. -/
def route_after_diagnose (intent : String) : String :=
  if intent = "prescribe" then "prescribe"
  else "synthesize"

/-- The node visit order of the compiled graph (graph.py lines 23-85)
for a given classified intent: entry point classify, fixed edge to
describe, conditional edges driven by `route_after_describe` and
`route_after_diagnose`, fixed edge prescribe → synthesize, and
synthesize → END. -/
def stage_path (intent : String) : List String :=
  ["classify", "describe"] ++
  (if route_after_describe intent = "diagnose" then
     "diagnose" ::
       (if route_after_diagnose intent = "prescribe" then ["prescribe"] else [])
   else []) ++
  ["synthesize"]

/-- The `data_context` channel of one `analyst_graph.invoke` run.
Per state.py line 18 the channel carries `Annotated[list[dict], add]`,
so langgraph applies `operator.add` on every write: the new channel
value is the current value concatenated with the value the node
returned for the key.  The trace below follows the run:
the input write of `data_context: []` leaves the channel `[]`;
classify returns `{**state, ...}` so it writes the (empty) list back;
describe builds and returns a fresh list of its own entries;
diagnose and prescribe append to the state's list — the channel's own
list object — in place and return it, so at their writes the current
channel value equals the returned value; synthesize returns
`{**state, "response": ...}`, writing the full accumulated list back
once more.  `intentV` and `ents` are the classification outcome. -/
def pipeline_data_context (question intentV : String) (ents : EntitySet)
    (today yesterday lastWeek : String)
    (res : String → String) (dt : Nat → Option String) : List DCEntry :=
  let c0 : List DCEntry := []
  let c1 := c0 ++ c0
  let date := get_date_from_range today yesterday lastWeek ents.date_range
  let c2 := c1 ++ describe question date res
  if route_after_describe intentV = "diagnose" then
    let g := diagnose question ents.skus c2 dt res
    let c3 := g ++ g
    if route_after_diagnose intentV = "prescribe" then
      let p := prescribe question c3 res
      let c4 := p ++ p
      c4 ++ c4
    else c3 ++ c3
  else c2 ++ c2

/-- One completed conversation turn (ConversationMemory.add_exchange,
conversation.py lines 142-148; the ISO timestamp string is omitted). -/
structure Exchange where
  question : String
  response : String
  intent : String
  tools_used : List String
  deriving Repr, DecidableEq

/-- A `SeniorAnalyst` as far as its observable session state goes: the
fields of its `ConversationMemory` (conversation.py lines 127-132). -/
structure SeniorAnalyst where
  session_id : String
  history : List Exchange
  last_question : Option String
  last_response : Option String
  last_tools_used : List String
  deriving Repr, DecidableEq

/-- `SeniorAnalyst(session_id=sid)`: a fresh analyst whose
ConversationMemory starts with empty history and no last exchange. -/
def newSeniorAnalyst (sid : String) : SeniorAnalyst :=
  ⟨sid, [], Option.none, Option.none, []⟩

/-- `SESSION_TTL_HOURS` of telegram_bot.py line 82. -/
def SESSION_TTL_HOURS : Nat := 24

/-- `get_analyst` of telegram_bot.py lines 92-107.  The session store
`user_sessions` is the map from user id to (analyst, last activity);
times are in seconds, so `timedelta(hours=SESSION_TTL_HOURS)` is
`SESSION_TTL_HOURS * 3600`.  Returns the analyst handed to the caller
together with the updated store. -/
def get_analyst (sessions : Nat → Option (SeniorAnalyst × Nat)) (user_id now : Nat) :
    SeniorAnalyst × (Nat → Option (SeniorAnalyst × Nat)) :=
  match sessions user_id with
  | Option.some (analyst, last_activity) =>
      if now - last_activity < SESSION_TTL_HOURS * 3600 then
        (analyst, fun u => if u = user_id then Option.some (analyst, now) else sessions u)
      else
        let a := newSeniorAnalyst ("tg_" ++ toString user_id)
        (a, fun u => if u = user_id then Option.some (a, now) else sessions u)
  | Option.none =>
      let a := newSeniorAnalyst ("tg_" ++ toString user_id)
      (a, fun u => if u = user_id then Option.some (a, now) else sessions u)

/-- Data/numbers words of the feedback classifier (wb_senior_analyst.py line 87). -/
def fb_data_words : List String := ["цифр", "данн", "числ", "сумм"]

/-- Recommendation words of the feedback classifier (wb_senior_analyst.py line 89). -/
def fb_recommendation_words : List String := ["рекоменд", "совет", "действ"]

/-- Calculation words of the feedback classifier (wb_senior_analyst.py line 91). -/
def fb_calculation_words : List String := ["расчёт", "формул", "считает"]

/-- Missing-info words of the feedback classifier (wb_senior_analyst.py line 93). -/
def fb_missing_words : List String := ["нет", "не хватает", "добав"]

/-- The ordered keyword classification of a feedback comment
(wb_senior_analyst.py lines 86-96). -/
def classify_feedback_type (comment : String) : String :=
  let c := pyLower comment
  if containsAny c fb_data_words then "incorrect_data"
  else if containsAny c fb_recommendation_words then "wrong_recommendation"
  else if containsAny c fb_calculation_words then "wrong_calculation"
  else if containsAny c fb_missing_words then "missing_info"
  else "other"

/-- The payload handed to `record_full_feedback.invoke`
(wb_senior_analyst.py lines 98-105); persistence itself is external. -/
structure FeedbackRecord where
  question : String
  response : Option String
  feedback_type : String
  user_comment : String
  expected_answer : String
  tools_used : List String
  deriving Repr, DecidableEq

/-- `SeniorAnalyst.report_error` (wb_senior_analyst.py lines 71-107):
with no prior question it returns the "no prior question" indicator
(modelled as `none`); otherwise it classifies the comment and builds
the feedback record passed to the external recorder. -/
def report_error (analyst : SeniorAnalyst) (comment : String) (expected : Option String) :
    Option FeedbackRecord :=
  match analyst.last_question with
  | Option.none => Option.none
  | Option.some q =>
      Option.some
        { question := q
          response := analyst.last_response
          feedback_type := classify_feedback_type comment
          user_comment := comment
          expected_answer := expected.getD ""
          tools_used := analyst.last_tools_used }

/-- Written from the words of claim C5, for comparison with
`diagnose_sku_calls` (which is translated from the code): "the first 3
numeric SKU identifiers present anywhere in the skus sequence". -/
def spec_first3_numeric_sku_ids (skus : List String) : List Nat :=
  ((skus.filter pyIsDigit).take 3).map pyToNat

/-- A concrete one-user session store used to instantiate the session
TTL theorem: user 7 holds an analyst with one recorded exchange, last
active at time 0. -/
def exSessions : Nat → Option (SeniorAnalyst × Nat) := fun u =>
  if u = 7 then
    Option.some (SeniorAnalyst.mk "tg_7" [Exchange.mk "q" "r" "describe" []]
      (Option.some "q") (Option.some "r") [], 0)
  else Option.none

end AnalystBot

namespace AnalystBot

/-- Helper: the per-SKU entries produced by the diagnose loop all carry
the tool label "diagnose_sku", so filtering for that label keeps them. -/
theorem sku_entries_filter (calls : List Nat) (dt : Nat → Option String) :
    ((calls.filterMap (fun nmid => (dt nmid).map (fun r => DCEntry.mk "diagnose_sku" r))).filter
        (fun e => e.tool == "diagnose_sku"))
      = calls.filterMap (fun nmid => (dt nmid).map (fun r => DCEntry.mk "diagnose_sku" r)) := by
  induction calls with
  | nil => rfl
  | cons n ns ih => cases h : dt n <;> simp [List.filterMap_cons, h, ih]

/-- Helper: a conditional singleton whose tool label fails the
predicate contributes nothing to a filter. -/
theorem filter_cond_singleton (c : Bool) (e : DCEntry) (P : DCEntry → Bool) (h : P e = false) :
    (if c then [e] else []).filter P = [] := by
  cases c <;> simp [h]

end AnalystBot

namespace AnalystBot

/-- Claim C1.  The claim states that every run's DataContext is an
append-only sequence in which each appended entry appears exactly once.
The code violates this: because `data_context` is declared
`Annotated[list[dict], add]` (state.py line 18), every node that
returns the accumulated list — classify, diagnose, prescribe and
synthesize all return `{**state, ...}` or the in-place-extended list —
makes langgraph concatenate it onto the current channel value again.
Already on the plain describe-intent run for the question
"Какая маржа была вчера?" the final data_context lists the single
margin-summary entry twice (once from describe, once re-appended by
synthesize's full-state return), for every tool layer and clock. -/
theorem C1_data_context_duplication (t y lw : String) (res : String → String)
    (dt : Nat → Option String) :
    (pipeline_data_context "Какая маржа была вчера?" "describe"
        (EntitySet.mk [] "yesterday" []) t y lw res dt).map (fun e => e.tool)
      = ["margin_summary", "margin_summary"] := by
  rfl

/-- Claim C2.  For every intent in {describe, diagnose, prescribe,
clarify} the router visits describe before diagnose, prescribe and
synthesize, visits synthesize exactly once and last, visits diagnose
iff the intent is diagnose or prescribe, visits prescribe iff the
intent is prescribe, and then only after diagnose. -/
theorem C2_router_order (intent : String)
    (h : intent ∈ (["describe", "diagnose", "prescribe", "clarify"] : List String)) :
    (stage_path intent).count "synthesize" = 1 ∧
    (stage_path intent).getLast? = some "synthesize" ∧
    (stage_path intent).indexOf "describe" < (stage_path intent).indexOf "diagnose" ∧
    (stage_path intent).indexOf "describe" < (stage_path intent).indexOf "prescribe" ∧
    (stage_path intent).indexOf "describe" < (stage_path intent).indexOf "synthesize" ∧
    ("diagnose" ∈ stage_path intent ↔ (intent = "diagnose" ∨ intent = "prescribe")) ∧
    ("prescribe" ∈ stage_path intent ↔ intent = "prescribe") ∧
    (intent = "prescribe" →
      (stage_path intent).indexOf "diagnose" < (stage_path intent).indexOf "prescribe") := by
  fin_cases h <;> decide

/-- Witness for C2 at the prescribe intent. -/
theorem C2_router_order_witness :
    (stage_path "prescribe").count "synthesize" = 1 ∧
    (stage_path "prescribe").getLast? = some "synthesize" ∧
    (stage_path "prescribe").indexOf "describe" < (stage_path "prescribe").indexOf "diagnose" ∧
    (stage_path "prescribe").indexOf "describe" < (stage_path "prescribe").indexOf "prescribe" ∧
    (stage_path "prescribe").indexOf "describe" < (stage_path "prescribe").indexOf "synthesize" ∧
    ("diagnose" ∈ stage_path "prescribe" ↔ ("prescribe" = "diagnose" ∨ "prescribe" = "prescribe")) ∧
    ("prescribe" ∈ stage_path "prescribe" ↔ "prescribe" = "prescribe") ∧
    ("prescribe" = "prescribe" →
      (stage_path "prescribe").indexOf "diagnose" < (stage_path "prescribe").indexOf "prescribe") :=
  C2_router_order "prescribe" (by decide)

/-- Claim C3.  On the keyword fallback (a structured-parse failure),
the intent is diagnose when a causal marker occurs in the lower-cased
question, else prescribe when an action-request marker occurs, else
describe (also when no marker matches at all), and the entities are
exactly {skus: [], date_range: "yesterday", metrics: []}. -/
theorem C3_classifier_fallback (q : String) :
    (containsAny (pyLower q) classify_diagnose_words = true →
      classify_intent q LoadsOutcome.jsonDecodeError =
        Except.ok (PyVal.str "diagnose", fallback_entities)) ∧
    (containsAny (pyLower q) classify_diagnose_words = false →
     containsAny (pyLower q) classify_prescribe_words = true →
      classify_intent q LoadsOutcome.jsonDecodeError =
        Except.ok (PyVal.str "prescribe", fallback_entities)) ∧
    (containsAny (pyLower q) classify_diagnose_words = false →
     containsAny (pyLower q) classify_prescribe_words = false →
      classify_intent q LoadsOutcome.jsonDecodeError =
        Except.ok (PyVal.str "describe", fallback_entities)) := by
  refine ⟨?_, ?_, ?_⟩
  · intro h1
    simp [classify_intent, classify_fallback_intent, h1]
  · intro h1 h2
    simp [classify_intent, classify_fallback_intent, h1, h2]
  · intro h1 h2
    cases h3 : containsAny (pyLower q) classify_describe_words <;>
      simp [classify_intent, classify_fallback_intent, h1, h2, h3]

/-- Witness for C3 on three concrete questions, one per branch. -/
theorem C3_classifier_fallback_witness :
    classify_intent "Почему упала маржа?" LoadsOutcome.jsonDecodeError =
      Except.ok (PyVal.str "diagnose", fallback_entities) ∧
    classify_intent "Что делать чтобы выполнить план?" LoadsOutcome.jsonDecodeError =
      Except.ok (PyVal.str "prescribe", fallback_entities) ∧
    classify_intent "привет" LoadsOutcome.jsonDecodeError =
      Except.ok (PyVal.str "describe", fallback_entities) :=
  ⟨(C3_classifier_fallback "Почему упала маржа?").1 (by rfl),
   (C3_classifier_fallback "Что делать чтобы выполнить план?").2.1 (by rfl) (by rfl),
   (C3_classifier_fallback "привет").2.2 (by rfl) (by rfl)⟩

/-- Counterexample to claim C4 as stated: a reasoning-service reply
whose structured payload cannot be parsed as intent+entities does
surface an error.  The reply text "123" decodes under `json.loads` to
the integer 123, on which `result.get` raises AttributeError — not
caught by `except (json.JSONDecodeError, IndexError)` — so the
classify stage propagates the exception to its caller. -/
theorem C4_parse_failure_counterexample :
    classify_intent "почему упала маржа" (LoadsOutcome.ok (PyVal.int 123)) =
      Except.error PyError.attributeError := rfl

/-- Claim C4 as amended: the classify stage recovers via the keyword
fallback exactly when `json.loads` fails to decode; a reply decoding to
a JSON object yields a normal result; a reply decoding to any
non-object value raises an uncaught AttributeError surfaced to the
caller. -/
theorem C4_parse_failure_recovery (q : String) (loads : LoadsOutcome) :
    (loads = LoadsOutcome.jsonDecodeError →
      classify_intent q loads =
        Except.ok (PyVal.str (classify_fallback_intent q), fallback_entities)) ∧
    (∀ kvs, loads = LoadsOutcome.ok (PyVal.dict kvs) →
      ∃ i e, classify_intent q loads = Except.ok (i, e)) ∧
    (∀ v, loads = LoadsOutcome.ok v → isDict v = false →
      classify_intent q loads = Except.error PyError.attributeError) := by
  refine ⟨?_, ?_, ?_⟩
  · intro h; subst h; rfl
  · intro kvs h; subst h; exact ⟨_, _, rfl⟩
  · intro v h hv; subst h
    cases v <;> simp_all [classify_intent, isDict]

/-- Witness for C4's amended statement on all three shapes of outcome. -/
theorem C4_parse_failure_recovery_witness :
    classify_intent "тест" LoadsOutcome.jsonDecodeError =
      Except.ok (PyVal.str (classify_fallback_intent "тест"), fallback_entities) ∧
    (∃ i e, classify_intent "тест" (LoadsOutcome.ok (PyVal.dict [])) = Except.ok (i, e)) ∧
    classify_intent "тест" (LoadsOutcome.ok (PyVal.int 5)) =
      Except.error PyError.attributeError :=
  ⟨(C4_parse_failure_recovery "тест" LoadsOutcome.jsonDecodeError).1 rfl,
   (C4_parse_failure_recovery "тест" (LoadsOutcome.ok (PyVal.dict []))).2.1 [] rfl,
   (C4_parse_failure_recovery "тест" (LoadsOutcome.ok (PyVal.int 5))).2.2 (PyVal.int 5) rfl rfl⟩

/-- Counterexample to claim C5 as stated: with skus
["a", "b", "c", "123"] the first 3 numeric identifiers present anywhere
in the sequence are [123], yet the diagnose loop — which slices
`skus[:3]` before testing numericity — invokes no per-SKU diagnosis at
all, even with an always-succeeding tool. -/
theorem C5_sku_selection_counterexample :
    spec_first3_numeric_sku_ids ["a", "b", "c", "123"] = [123] ∧
    diagnose_sku_calls ["a", "b", "c", "123"] = [] ∧
    (diagnose "" ["a", "b", "c", "123"] [] (fun _ => Option.some "ok") (fun t => t)).filter
        (fun e => e.tool == "diagnose_sku") = [] := by
  refine ⟨rfl, rfl, rfl⟩

/-- Claim C5 as amended: the diagnose stage attempts a per-SKU
diagnosis (7-day window) exactly for the elements among the first 3
entries of skus that are nonempty all-digit strings with nonzero value
(`diagnose_sku_calls`); the diagnose_sku entries it appends are
precisely the successful lookups among those, in order, failing lookups
and non-numeric entries being skipped silently; and the stage never
aborts: the incoming data_context survives as a prefix of the output. -/
theorem C5_sku_diagnosis (q : String) (skus : List String) (dc : List DCEntry)
    (dt : Nat → Option String) (res : String → String) :
    ((diagnose q skus dc dt res).filter (fun e => e.tool == "diagnose_sku"))
      = dc.filter (fun e => e.tool == "diagnose_sku") ++ diagnose_sku_entries skus dt ∧
    (∃ rest, diagnose q skus dc dt res = dc ++ rest) := by
  have hkw : (diagnose_keyword_entries q res).filter (fun e => e.tool == "diagnose_sku") = [] := by
    simp only [diagnose_keyword_entries, List.filter_append]
    rw [filter_cond_singleton _ _ _ (by rfl), filter_cond_singleton _ _ _ (by rfl),
        filter_cond_singleton _ _ _ (by rfl)]
    rfl
  have hsku : (diagnose_sku_entries skus dt).filter (fun e => e.tool == "diagnose_sku")
      = diagnose_sku_entries skus dt := sku_entries_filter (diagnose_sku_calls skus) dt
  constructor
  · simp only [diagnose]
    split
    · simp [List.filter_append, hkw, hsku]
    · simp [List.filter_append, hkw, hsku]
  · simp only [diagnose]
    split
    · exact ⟨diagnose_sku_entries skus dt ++ diagnose_keyword_entries q res,
        by simp [List.append_assoc]⟩
    · exact ⟨diagnose_sku_entries skus dt ++ diagnose_keyword_entries q res
          ++ [⟨"analyze_margin_change", res "analyze_margin_change"⟩],
        by simp [List.append_assoc]⟩

end AnalystBot

namespace AnalystBot

/-- Claim C6.  After the describe stage the DataContext has at least
one entry, and when no keyword group matched the question the stage
appends exactly the two fallback entries: a margin-summary entry
followed by a plan-vs-fact entry. -/
theorem C6_describe_fallback (q date : String) (res : String → String) :
    1 ≤ (describe q date res).length ∧
    (containsAny (pyLower q) margin_words = false →
     containsAny (pyLower q) plan_words = false →
     containsAny (pyLower q) top_words = false →
     containsAny (pyLower q) bottom_words = false →
     containsAny (pyLower q) funnel_words = false →
     containsAny (pyLower q) stock_words = false →
     containsAny (pyLower q) ads_words = false →
     containsAny (pyLower q) trend_words = false →
     containsAny (pyLower q) underperf_words = false →
      describe q date res
        = [⟨"margin_summary", res "margin_summary"⟩, ⟨"plan_fact", res "plan_fact"⟩]) := by
  constructor
  · simp only [describe]
    split
    · simp
    · rename_i h
      have hne : describe_base q res ≠ [] := by
        intro e
        rw [e] at h
        exact h rfl
      exact List.length_pos.mpr hne
  · intro h1 h2 h3 h4 h5 h6 h7 h8 h9
    have hb : describe_base q res = [] := by
      simp [describe_base, h1, h2, h3, h4, h5, h6, h7, h8, h9]
    simp [describe, hb]

/-- Witness for C6 on a question matching no keyword group. -/
theorem C6_describe_fallback_witness :
    1 ≤ (describe "abc" "2026-10-11" (fun t => t)).length ∧
    describe "abc" "2026-10-11" (fun t => t)
      = [⟨"margin_summary", "margin_summary"⟩, ⟨"plan_fact", "plan_fact"⟩] :=
  ⟨(C6_describe_fallback "abc" "2026-10-11" (fun t => t)).1,
   (C6_describe_fallback "abc" "2026-10-11" (fun t => t)).2
     rfl rfl rfl rfl rfl rfl rfl rfl rfl⟩

/-- Claim C7.  For every question, EntitySet skus, incoming
data_context and tool layer, the data_context returned by the diagnose
stage contains at least one entry whose tool name begins with analyze,
compare, find_anomalies or diagnose_sku: the fallback guard makes this
unconditional. -/
theorem C7_diagnose_guarantee (q : String) (skus : List String) (dc : List DCEntry)
    (dt : Nat → Option String) (res : String → String) :
    (diagnose q skus dc dt res).any
      (fun item => startsWithAny item.tool diag_tool_prefixes) = true := by
  simp only [diagnose]
  split
  · rename_i h
    exact h
  · have ham : startsWithAny "analyze_margin_change" diag_tool_prefixes = true := by rfl
    simp [List.any_append, ham]

/-- Counterexample to claim C8 as stated: the unresolved token
"foo-bar" is not mapped to yesterday's date — because it contains a
hyphen the code passes it through unchanged. -/
theorem C8_date_resolution_counterexample :
    get_date_from_range "2026-10-12" "2026-10-11" "2026-10-05" "foo-bar" = "foo-bar" ∧
    ("foo-bar" : String) ≠ "2026-10-11" := ⟨rfl, by decide⟩

/-- Claim C8 as amended: "today" maps to the current date, "yesterday"
to the current date minus one day, "last_week" to the current date
minus seven days; any other string containing a hyphen — which includes
every YYYY-MM-DD literal — is passed through unchanged; and hyphen-free
unresolved tokens default to yesterday. -/
theorem C8_date_resolution (t y lw r : String) :
    (r = "today" → get_date_from_range t y lw r = t) ∧
    (r = "yesterday" → get_date_from_range t y lw r = y) ∧
    (r = "last_week" → get_date_from_range t y lw r = lw) ∧
    (r ≠ "today" → r ≠ "yesterday" → r ≠ "last_week" → strContains r "-" = true →
      get_date_from_range t y lw r = r) ∧
    (r ≠ "today" → r ≠ "yesterday" → r ≠ "last_week" → strContains r "-" = false →
      get_date_from_range t y lw r = y) := by
  refine ⟨?_, ?_, ?_, ?_, ?_⟩
  · intro h; subst h; rfl
  · intro h; subst h; rfl
  · intro h; subst h; rfl
  · intro h1 h2 h3 h4
    simp [get_date_from_range, h1, h2, h3, h4]
  · intro h1 h2 h3 h4
    simp [get_date_from_range, h1, h2, h3, h4]

/-- Witness for C8's amended statement on three branches. -/
theorem C8_date_resolution_witness :
    get_date_from_range "2026-10-12" "2026-10-11" "2026-10-05" "today" = "2026-10-12" ∧
    get_date_from_range "2026-10-12" "2026-10-11" "2026-10-05" "2026-01-05" = "2026-01-05" ∧
    get_date_from_range "2026-10-12" "2026-10-11" "2026-10-05" "unknown" = "2026-10-11" :=
  ⟨(C8_date_resolution "2026-10-12" "2026-10-11" "2026-10-05" "today").1 rfl,
   (C8_date_resolution "2026-10-12" "2026-10-11" "2026-10-05" "2026-01-05").2.2.2.1
     (by decide) (by decide) (by decide) (by rfl),
   (C8_date_resolution "2026-10-12" "2026-10-11" "2026-10-05" "unknown").2.2.2.2
     (by decide) (by decide) (by decide) (by rfl)⟩

/-- Claim C9.  An access whose stored session's last activity is older
than the 24-hour TTL gets a fresh analyst with a new empty history
(stored back under the id); an access within the TTL gets the existing
analyst, history intact, with its activity timestamp refreshed. -/
theorem C9_session_ttl (sessions : Nat → Option (SeniorAnalyst × Nat))
    (uid now last : Nat) (a : SeniorAnalyst)
    (h : sessions uid = Option.some (a, last)) :
    (SESSION_TTL_HOURS * 3600 < now - last →
      (get_analyst sessions uid now).1 = newSeniorAnalyst ("tg_" ++ toString uid) ∧
      (get_analyst sessions uid now).1.history = [] ∧
      (get_analyst sessions uid now).2 uid
        = Option.some ((get_analyst sessions uid now).1, now)) ∧
    (now - last < SESSION_TTL_HOURS * 3600 →
      (get_analyst sessions uid now).1 = a ∧
      (get_analyst sessions uid now).2 uid = Option.some (a, now)) := by
  constructor
  · intro hexp
    have hnot : ¬ (now - last < SESSION_TTL_HOURS * 3600) := Nat.lt_asymm hexp
    simp [get_analyst, h, if_neg hnot, newSeniorAnalyst]
  · intro hfr
    simp [get_analyst, h, if_pos hfr]

/-- Witness for C9: user 7's session (last active at 0) is expired at
time 90000 and recreated empty, but returned intact at time 100. -/
theorem C9_session_ttl_witness :
    (get_analyst exSessions 7 90000).1.history = [] ∧
    (get_analyst exSessions 7 100).1
      = SeniorAnalyst.mk "tg_7" [Exchange.mk "q" "r" "describe" []]
          (Option.some "q") (Option.some "r") [] :=
  ⟨((C9_session_ttl exSessions 7 90000 0
      (SeniorAnalyst.mk "tg_7" [Exchange.mk "q" "r" "describe" []]
        (Option.some "q") (Option.some "r") []) rfl).1 (by decide)).2.1,
   ((C9_session_ttl exSessions 7 100 0
      (SeniorAnalyst.mk "tg_7" [Exchange.mk "q" "r" "describe" []]
        (Option.some "q") (Option.some "r") []) rfl).2 (by decide)).1⟩

/-- Claim C10.  With a prior question present, report_error records a
feedback payload whose type is the ordered keyword classification of
the lower-cased comment: data/numbers words give incorrect_data, then
recommendation/advice words give wrong_recommendation, then
formula/calculation words give wrong_calculation, then
missing/not-enough words give missing_info, otherwise other. -/
theorem C10_feedback_classification (analyst : SeniorAnalyst) (comment : String)
    (expected : Option String) (q : String)
    (h : analyst.last_question = Option.some q) :
    ∃ r, report_error analyst comment expected = Option.some r ∧
      r.feedback_type = classify_feedback_type comment ∧
      (containsAny (pyLower comment) fb_data_words = true →
        r.feedback_type = "incorrect_data") ∧
      (containsAny (pyLower comment) fb_data_words = false →
       containsAny (pyLower comment) fb_recommendation_words = true →
        r.feedback_type = "wrong_recommendation") ∧
      (containsAny (pyLower comment) fb_data_words = false →
       containsAny (pyLower comment) fb_recommendation_words = false →
       containsAny (pyLower comment) fb_calculation_words = true →
        r.feedback_type = "wrong_calculation") ∧
      (containsAny (pyLower comment) fb_data_words = false →
       containsAny (pyLower comment) fb_recommendation_words = false →
       containsAny (pyLower comment) fb_calculation_words = false →
       containsAny (pyLower comment) fb_missing_words = true →
        r.feedback_type = "missing_info") ∧
      (containsAny (pyLower comment) fb_data_words = false →
       containsAny (pyLower comment) fb_recommendation_words = false →
       containsAny (pyLower comment) fb_calculation_words = false →
       containsAny (pyLower comment) fb_missing_words = false →
        r.feedback_type = "other") := by
  refine ⟨⟨q, analyst.last_response, classify_feedback_type comment, comment,
      expected.getD "", analyst.last_tools_used⟩, ?_, rfl, ?_, ?_, ?_, ?_, ?_⟩
  · simp [report_error, h]
  · intro h1
    simp [classify_feedback_type, h1]
  · intro h1 h2
    simp [classify_feedback_type, h1, h2]
  · intro h1 h2 h3
    simp [classify_feedback_type, h1, h2, h3]
  · intro h1 h2 h3 h4
    simp [classify_feedback_type, h1, h2, h3, h4]
  · intro h1 h2 h3 h4
    simp [classify_feedback_type, h1, h2, h3, h4]

/-- Witness for C10: a "маржа"/digits-mismatch comment classifies as
incorrect_data and a comment matching no keyword group as other. -/
theorem C10_feedback_classification_witness :
    (∃ r, report_error (SeniorAnalyst.mk "s" [] (Option.some "в1") (Option.some "о1") [])
        "маржа: цифры не совпадают" Option.none = Option.some r ∧
        r.feedback_type = "incorrect_data") ∧
    (∃ r, report_error (SeniorAnalyst.mk "s" [] (Option.some "в1") (Option.some "о1") [])
        "плохо" Option.none = Option.some r ∧ r.feedback_type = "other") := by
  constructor
  · obtain ⟨r, heq, _, hdata, _⟩ :=
      C10_feedback_classification
        (SeniorAnalyst.mk "s" [] (Option.some "в1") (Option.some "о1") [])
        "маржа: цифры не совпадают" Option.none "в1" rfl
    exact ⟨r, heq, hdata (by rfl)⟩
  · obtain ⟨r, heq, _, _, _, _, _, hother⟩ :=
      C10_feedback_classification
        (SeniorAnalyst.mk "s" [] (Option.some "в1") (Option.some "о1") [])
        "плохо" Option.none "в1" rfl
    exact ⟨r, heq, hother (by rfl) (by rfl) (by rfl) (by rfl)⟩

end AnalystBot
